import Mathlib

/-!
A shallow embedding of the lace-http request pipeline
(src/packages/http/lib/index.js) together with proofs about its response
serialization, error mapping and rxjs-based dispatch.

JavaScript values that can flow through the pipeline are modelled by the
inductive type JSValue; the mutable Node response handle is modelled by the
Res record; rxjs observables are modelled as cold, finite streams (a list of
emissions plus a terminal signal).  Fallible JavaScript operations (property
access on null, Buffer.byteLength on a non-string, JSON.stringify on a
circular structure) are modelled with Except, the thrown value being itself
a JSValue.
-/

namespace LaceHttp

/-- A JavaScript value, restricted to the shapes that can flow through the
lace-http pipeline.  `response tagged data statusCode headers` models an
object with fields data, statusCode and headers, carrying the IS_RESPONSE
symbol exactly when `tagged` is true: only `send` creates tagged objects,
while `prepareResponse` creates untagged wrappers of the same shape.
`responseError` models instances of the ResponseError class (statusCode and
originalError are its own enumerable fields; message comes from Error).
`jsError` models ordinary platform Error values such as TypeError.
`reqres` models the per-connection pair of request and response handles
emitted by the server observable.  `promise` models a promise-like value
together with how it settles; to the pipeline it is just a plain value,
which is never awaited. -/
inductive JSValue where
  | undefined
  | null
  | bool (b : Bool)
  | num (n : Int)
  | str (s : String)
  | buffer (bytes : List Nat)
  | stream (chunks : List String)
  | promise (rejected : Bool) (settled : JSValue)
  | response (tagged : Bool) (data : JSValue) (statusCode : Int)
      (headers : List (String × String))
  | responseError (statusCode : Int) (message : String) (originalError : JSValue)
  | jsError (message : String)
  | reqres (id : Nat)
  deriving DecidableEq

/-- JavaScript truthiness of a modelled value. -/
def truthy : JSValue → Bool
  | .undefined => false
  | .null => false
  | .bool b => b
  | .num n => !(n == 0)
  | .str s => !(s == "")
  | _ => true

/-- The result of the JavaScript typeof operator on a modelled value
(typeof null is the string object). -/
def typeofStr : JSValue → String
  | .undefined => "undefined"
  | .bool _ => "boolean"
  | .num _ => "number"
  | .str _ => "string"
  | _ => "object"

/-- TypeError thrown by the property access null[IS_RESPONSE]. -/
def nullPropertyError : JSValue :=
  .jsError "TypeError: Cannot read properties of null reading Symbol(is-response)"

/-- TypeError thrown by the property access undefined[IS_RESPONSE]. -/
def undefinedPropertyError : JSValue :=
  .jsError "TypeError: Cannot read properties of undefined reading Symbol(is-response)"

/-- TypeError thrown by Buffer.byteLength on a value that is neither a
string nor a Buffer. -/
def byteLengthTypeError : JSValue :=
  .jsError "TypeError: The first argument must be of type string or an instance of Buffer"

/-- TypeError thrown by JSON.stringify on a circular structure; the pair of
request and response handles is circular. -/
def circularStructureError : JSValue :=
  .jsError "TypeError: Converting circular structure to JSON"

/-- Buffer.byteLength: utf8 byte length of a string, length of a buffer,
TypeError otherwise. -/
def byteLength : JSValue → Except JSValue Nat
  | .str s => .ok s.utf8ByteSize
  | .buffer bytes => .ok bytes.length
  | _ => .error byteLengthTypeError

/-- JSON escaping of one character (the escapes this model exercises). -/
def escapeChar (c : Char) : String :=
  if c = '"' then "\\\""
  else if c = '\\' then "\\\\"
  else if c = '\n' then "\\n"
  else if c = '\r' then "\\r"
  else if c = '\t' then "\\t"
  else String.singleton c

/-- JSON string quoting. -/
def jsonQuote (s : String) : String :=
  "\"" ++ String.join (s.data.map escapeChar) ++ "\""

/-- JSON.stringify (compact form; the development pretty-printing mode is
never enabled below) on the modelled values.  Only own enumerable
properties are serialized: promises and plain Error instances stringify to
\x7b\x7d; ResponseError instances additionally expose their assigned
statusCode and originalError fields (originalError is skipped when
undefined, as JSON.stringify skips undefined-valued properties); the pair
of request and response handles is circular, so JSON.stringify throws on
it.  Stream objects are approximated by \x7b\x7d: the stream branch of the
serializer precedes the JSON branch, so the case is unreachable from it.
The undefined case is likewise unreachable from the serializer because
typeof undefined is neither object nor number. -/
def jsonStringify : JSValue → Except JSValue String
  | .undefined => .ok "undefined"
  | .null => .ok "null"
  | .bool b => .ok (if b then "true" else "false")
  | .num n => .ok (toString n)
  | .str s => .ok (jsonQuote s)
  | .buffer bytes =>
      .ok ("\x7b\"type\":\"Buffer\",\"data\":[" ++
        String.intercalate "," (bytes.map toString) ++ "]\x7d")
  | .stream _ => .ok "\x7b\x7d"
  | .promise _ _ => .ok "\x7b\x7d"
  | .jsError _ => .ok "\x7b\x7d"
  | .reqres _ => .error circularStructureError
  | .responseError c _ orig =>
      if orig matches .undefined then
        .ok ("\x7b\"statusCode\":" ++ toString c ++ "\x7d")
      else
        match jsonStringify orig with
        | .error e => .error e
        | .ok s => .ok ("\x7b\"statusCode\":" ++ toString c ++
            ",\"originalError\":" ++ s ++ "\x7d")
  | .response _ d c hs =>
      let hdrs := "\x7b" ++ String.intercalate ","
        (hs.map fun p => jsonQuote p.1 ++ ":" ++ jsonQuote p.2) ++ "\x7d"
      if d matches .undefined then
        .ok ("\x7b\"statusCode\":" ++ toString c ++ ",\"headers\":" ++ hdrs ++ "\x7d")
      else
        match jsonStringify d with
        | .error e => .error e
        | .ok ds => .ok ("\x7b\"data\":" ++ ds ++ ",\"statusCode\":" ++ toString c ++
            ",\"headers\":" ++ hdrs ++ "\x7d")

/-- What the serializer put on the wire: res.end() with no payload,
res.end(v) with a payload, or a stream piped into the response (the stream
drives its own end). -/
inductive Wire where
  | empty
  | chunk (v : JSValue)
  | piped (v : JSValue)
  deriving DecidableEq

/-- ASCII lowercasing, as Node applies to header names. -/
def lowerChar (c : Char) : Char :=
  if 65 ≤ c.toNat ∧ c.toNat ≤ 90 then Char.ofNat (c.toNat + 32) else c

/-- The case-insensitive key under which Node stores a header name. -/
def headerKey (s : String) : String :=
  ⟨s.data.map lowerChar⟩

/-- The mutable Node ServerResponse handle: the status code, the headers
set so far (keyed by lowercased name, insertion order preserved, as Node
stores them) and what, if anything, was written and ended on the wire. -/
structure Res where
  statusCode : Int
  headers : List (String × String)
  wire : Option Wire
  deriving DecidableEq

/-- A response handle before the pipeline touches it (Node defaults the
status code to 200). -/
def freshRes : Res := { statusCode := 200, headers := [], wire := none }

/-- First value stored under a (already lowercased) key. -/
def lookupHeader (l : List (String × String)) (key : String) : Option String :=
  match l with
  | [] => none
  | p :: t => if p.1 == key then some p.2 else lookupHeader t key

/-- Whether some entry is stored under a (already lowercased) key. -/
def hasHeader (l : List (String × String)) (key : String) : Bool :=
  match l with
  | [] => false
  | p :: t => p.1 == key || hasHeader t key

/-- Replace, in place, every entry stored under a key. -/
def replaceHeader (l : List (String × String)) (key value : String) :
    List (String × String) :=
  l.map fun p => if p.1 == key then (key, value) else p

/-- res.setHeader: replaces the value in place when the case-insensitive
name is already set, appends otherwise. -/
def Res.setHeader (res : Res) (name value : String) : Res :=
  let key := headerKey name
  if hasHeader res.headers key then
    { res with headers := replaceHeader res.headers key value }
  else
    { res with headers := res.headers ++ [(key, value)] }

/-- res.getHeader, case-insensitive. -/
def Res.getHeader (res : Res) (name : String) : Option String :=
  lookupHeader res.headers (headerKey name)

/-- Object.keys(headers).forEach(header => res.setHeader(header,
headers[header])). -/
def applyHeaders (res : Res) (headers : List (String × String)) : Res :=
  headers.foldl (fun r p => r.setHeader p.1 p.2) res

/-- The pattern if (!res.getHeader(Content-Type)) res.setHeader(...) used
by three serializer branches: the default is applied when the header is
absent or set to a falsy (empty) string. -/
def contentTypeDefault (res : Res) (value : String) : Res :=
  if ((res.getHeader "Content-Type").getD "") == "" then
    res.setHeader "Content-Type" value
  else res

/-- isResponseObject = o => !!o[IS_RESPONSE].  Property access on null or
undefined throws a TypeError; every other value is boxed if needed and
yields the symbol-keyed tag, which only objects built by send carry. -/
def isResponseObject : JSValue → Except JSValue Bool
  | .null => .error nullPropertyError
  | .undefined => .error undefinedPropertyError
  | .response tagged _ _ _ => .ok tagged
  | _ => .ok false

/-- prepareResponse: a tagged response object passes through unchanged; any
other value is wrapped as an untagged object of the same shape with
statusCode 200, empty headers and the value as data. -/
def prepareResponse (o : JSValue) : Except JSValue JSValue := do
  if (← isResponseObject o) then
    return o
  return .response false o 200 []

/-- The typed tail of sendResponse, after the status code, the null check
and the descriptor headers: the buffer branch, the stream branch, the
JSON branch for object- and number-typed data (the development
pretty-printing arm is dead because the development flag is never set
below) and the plain-text branch, whose Buffer.byteLength call throws on
data that is neither a string nor a buffer.  On a throw the response is
never ended; no claim observes the partially mutated handle, so the throw
simply discards it. -/
def writeBody (res : Res) (data : JSValue) : Except JSValue Res :=
  match data with
  | .buffer bytes =>
      let res := contentTypeDefault res "application/octet-stream"
      let res := res.setHeader "Content-Length" (toString bytes.length)
      .ok { res with wire := some (Wire.chunk (.buffer bytes)) }
  | .stream chunks =>
      let res := contentTypeDefault res "application/octet-stream"
      .ok { res with wire := some (Wire.piped (.stream chunks)) }
  | data =>
      if typeofStr data == "object" || typeofStr data == "number" then
        match jsonStringify data with
        | .error e => .error e
        | .ok str =>
            let res := contentTypeDefault res "application/json; charset=utf-8"
            let res := res.setHeader "Content-Length" (toString str.utf8ByteSize)
            .ok { res with wire := some (Wire.chunk (.str str)) }
      else
        match byteLength data with
        | .error e => .error e
        | .ok n =>
            let res := res.setHeader "Content-Length" (toString n)
            .ok { res with wire := some (Wire.chunk data) }

/-- sendResponse(res, response): set the status code; data === null ends
the response with no body - notably before any descriptor header is
applied; otherwise apply the descriptor headers and run the typed tail.
Only response-shaped objects ever reach it in the pipeline; destructuring
anything else is modelled as a throw. -/
def sendResponse (res : Res) (response : JSValue) : Except JSValue Res :=
  match response with
  | .response _ data statusCode headers =>
      let res := { res with statusCode := statusCode }
      if data matches .null then
        .ok { res with wire := some Wire.empty }
      else
        writeBody (applyHeaders res headers) data
  | _ => .error (.jsError "TypeError: sendResponse requires a response-shaped object")

/-- send(data, statusCode, headers) builds a tagged response object.  The
source defaults statusCode to 200 and headers to the empty array, whose
Object.keys is empty and is indistinguishable here from the empty
mapping. -/
def send (data : JSValue) (statusCode : Int) (headers : List (String × String)) : JSValue :=
  .response true data statusCode headers

/-- createError(code, message, originalError) = new ResponseError(code,
message, originalError). -/
def createError (code : Int) (message : String) (originalError : JSValue) : JSValue :=
  .responseError code message originalError

/-- prepareErrorResponse: pass a ResponseError through, wrap anything else
as 500 Internal Server Error.  The first component is the value whose
stack is printed to the error log (originalError when truthy, the error
itself otherwise); the second is the descriptor handed to sendResponse,
built by send(error.message, error.statusCode). -/
def prepareErrorResponse (e : JSValue) : JSValue × JSValue :=
  let error := match e with
    | .responseError _ _ _ => e
    | _ => createError 500 "Internal Server Error" e
  match error with
  | .responseError code message originalError =>
      (if truthy originalError then originalError else error,
       send (.str message) code [])
  | _ => (error, send .undefined 500 [])
  -- the catch-all arm is unreachable: error is a ResponseError by construction

/-- The triple emitted per request: the event object, the error slot (null
on the success path) and the value slot (null on the error path). -/
structure Triple where
  event : JSValue
  err : JSValue
  val : JSValue
  deriving DecidableEq

/-- sendResponse(res, prepareResponse(val)): the normal response pipeline
applied to a handler value; a throw from prepareResponse propagates. -/
def responsePipeline (res : Res) (v : JSValue) : Except JSValue Res :=
  match prepareResponse v with
  | .error e => .error e
  | .ok d => sendResponse res d

/-- The body of the subscribe callback in serve: a truthy err goes through
the error pipeline; otherwise any value except undefined goes through the
normal pipeline; an undefined value writes nothing, the handler being
assumed to have answered through the raw handle.  none models the
no-write outcome. -/
def handleTriple (res : Res) (t : Triple) : Option (Except JSValue Res) :=
  if truthy t.err then
    some (sendResponse res (prepareErrorResponse t.err).2)
  else if t.val matches .undefined then
    none
  else
    some (responsePipeline res t.val)

/-- Terminal signal of an observable: completion, an error, or pending
when it never terminates. -/
inductive Terminal where
  | complete
  | error (e : JSValue)
  | pending
  deriving DecidableEq

/-- A cold observable, modelled by its finite emissions and its terminal
signal. -/
structure Obs (α : Type) where
  emits : List α
  term : Terminal
  deriving DecidableEq

/-- The map operator: emissions are mapped, the terminal signal passes
through. -/
def Obs.map {α β : Type} (o : Obs α) (f : α → β) : Obs β :=
  { emits := o.emits.map f, term := o.term }

/-- The catchError operator: emissions pass through; on error the
replacement observable produced from the error value takes over. -/
def Obs.catchError {α : Type} (o : Obs α) (f : JSValue → Obs α) : Obs α :=
  match o.term with
  | .error e => { emits := o.emits ++ (f e).emits, term := (f e).term }
  | t => { emits := o.emits, term := t }

/-- of(v): one emission, then completion. -/
def Rx.of {α : Type} (v : α) : Obs α := { emits := [v], term := .complete }

/-- throwError(e): no emission, immediate error. -/
def Rx.throwError {α : Type} (e : JSValue) : Obs α := { emits := [], term := .error e }

/-- Outcome of invoking the user handler: an rxjs Observable, a
synchronous throw, or any other plain return value - promise-like values
included, since a promise is not an Observable. -/
inductive HandlerResult where
  | value (v : JSValue)
  | observable (o : Obs JSValue)
  | throws (e : JSValue)

/-- The user handler.  mapToObservable is pipe(fn), and pipe composes
functions on observables, so the handler is applied to the source
observable of the event, not to the bare event. -/
abbrev Handler : Type := Obs JSValue → HandlerResult

/-- mapToObservable(f): apply f to the source observable; keep the result
when it is an instance of Observable, wrap it with of otherwise (promises
included, unsettled), and turn a synchronous throw into throwError. -/
def mapToObservable (f : Handler) (source : Obs JSValue) : Obs JSValue :=
  match f source with
  | .observable o => o
  | .value v => Rx.of v
  | .throws e => Rx.throwError e

/-- The inner per-request chain of run: the source of the one event,
piped through mapToObservable(handler), then map of each value to a
success triple, then catchError producing a single error triple. -/
def requestPipeline (handler : Handler) (ev : JSValue) : Obs Triple :=
  ((mapToObservable handler (Rx.of ev)).map fun v => ⟨ev, .null, v⟩).catchError
    fun e => Rx.of ⟨ev, e, .null⟩

/-- run(handler, source): mergeMap of the inner chain over the source of
request events, multicast through a Subject.  mergeMap merges with
unbounded concurrency, so across concurrent requests the emission order
is an interleaving; it is modelled here in source order, on which the
properties proved below do not depend (they concern per-request emissions
and the terminal channel).  A source error terminates the output with
that error; the output completes once the source completes and every
inner chain has completed.  The multicast Subject shares the sequence
without altering it and is elided. -/
def run (handler : Handler) (source : Obs JSValue) : Obs Triple :=
  { emits := (source.emits.map fun ev => (requestPipeline handler ev).emits).flatten,
    term :=
      match source.term with
      | .error e => .error e
      | .pending => .pending
      | .complete =>
          if source.emits.all (fun ev => (requestPipeline handler ev).term matches .complete)
          then .complete else .pending }

/-- One run of the server primitive as observed by createServerObservable:
either the try block throws synchronously (createServer, or the onCreate
callback, which performs server.listen), in which case observer.error
fires before any request was accepted; or the server accepts the scripted
requests, one event each, and the sequence completes exactly when the
close event fires. -/
structure ServerScript where
  constructError : Option JSValue
  requests : List Nat
  closed : Bool

/-- createServerObservable(onCreate) under a given server script. -/
def createServerObservable (script : ServerScript) : Obs JSValue :=
  match script.constructError with
  | some e => { emits := [], term := .error e }
  | none =>
      { emits := script.requests.map JSValue.reqres,
        term := if script.closed then .complete else .pending }

/-- The request observable that listen builds inside serve: run over the
server observable. -/
def serveRequests (handler : Handler) (script : ServerScript) : Obs Triple :=
  run handler (createServerObservable script)

/-! ## Properties of the pipeline -/

/-- C1, counterexample: a handler that returns a promise-like value settled
with the string boom is not awaited by the dispatch pipeline.  The single
emitted triple carries the promise object itself as its value - not the
settled string - and even though the promise is rejected the err slot stays
null, so the rejection is never captured as that request error. -/
theorem C1_counterexample :
    requestPipeline (fun _ => .value (.promise true (.str "boom"))) (.reqres 0) =
      { emits := [⟨.reqres 0, .null, .promise true (.str "boom")⟩], term := .complete } ∧
    JSValue.promise true (.str "boom") ≠ JSValue.str "boom" :=
  ⟨rfl, fun h => JSValue.noConfusion h⟩

/-- C1, amended: the dispatch pipeline awaits nothing.  A promise-like
handler return value is not an Observable, so mapToObservable wraps it with
of and it is emitted unchanged as the value of the single triple for that
request, with a null err slot, whether the promise was fulfilled or
rejected; the settled value is never extracted and an asynchronous
rejection is never captured as the request error. -/
theorem C1_amended (rejected : Bool) (settled ev : JSValue) :
    requestPipeline (fun _ => .value (.promise rejected settled)) ev =
      { emits := [⟨ev, .null, .promise rejected settled⟩], term := .complete } := rfl

/-- C2, counterexample: a handler returning a two-element sequence makes
the pipeline emit two triples for that one request - one per element, the
first carrying the non-final element - not exactly one triple holding the
final element. -/
theorem C2_counterexample :
    (requestPipeline
        (fun _ => .observable { emits := [.num 1, .num 2], term := .complete })
        (.reqres 0)).emits =
      [⟨.reqres 0, .null, .num 1⟩, ⟨.reqres 0, .null, .num 2⟩] ∧
    (requestPipeline
        (fun _ => .observable { emits := [.num 1, .num 2], term := .complete })
        (.reqres 0)).emits.length ≠ 1 :=
  ⟨rfl, by decide⟩

/-- C2, amended: per Request Event the pipeline emits one triple per
element of the normalized handler outcome, each carrying either a null err
or a null val slot: exactly one triple when the handler returns a plain
value or throws synchronously; one triple per emitted element, in order,
plus one trailing error triple if the sequence fails, when the handler
returns a sequence - so a multi-element sequence yields several triples
(none of them singled out as final) and an empty one yields none. -/
theorem C2_amended (handler : Handler) (ev : JSValue) :
    requestPipeline handler ev =
      (match handler (Rx.of ev) with
       | .value v => { emits := [⟨ev, .null, v⟩], term := .complete }
       | .throws e => { emits := [⟨ev, e, .null⟩], term := .complete }
       | .observable o =>
           { emits := o.emits.map (fun v => ⟨ev, .null, v⟩) ++
               (match o.term with | .error e => [⟨ev, e, .null⟩] | _ => []),
             term := match o.term with | .error _ => .complete | t => t }) ∧
    ((requestPipeline handler ev).emits.all
      fun t => (t.err matches .null) || (t.val matches .null)) = true := by
  constructor
  · cases h : handler (Rx.of ev) with
    | value v =>
        simp only [Rx.of] at h
        simp [requestPipeline, mapToObservable, h, Rx.of, Obs.map, Obs.catchError]
    | throws e =>
        simp only [Rx.of] at h
        simp [requestPipeline, mapToObservable, h, Rx.of, Rx.throwError, Obs.map,
          Obs.catchError]
    | observable o =>
        simp only [Rx.of] at h
        obtain ⟨em, tm⟩ := o
        cases tm <;>
          simp [requestPipeline, mapToObservable, h, Rx.of, Obs.map, Obs.catchError]
  · cases h : handler (Rx.of ev) with
    | value v =>
        simp only [Rx.of] at h
        simp [requestPipeline, mapToObservable, h, Rx.of, Obs.map, Obs.catchError]
    | throws e =>
        simp only [Rx.of] at h
        simp [requestPipeline, mapToObservable, h, Rx.of, Rx.throwError, Obs.map,
          Obs.catchError]
    | observable o =>
        simp only [Rx.of] at h
        obtain ⟨em, tm⟩ := o
        cases tm <;>
          simp [requestPipeline, mapToObservable, h, Rx.of, Obs.map, Obs.catchError,
            List.all_map, Function.comp]

/-- C3: the code is wrong where both the claim and the rest of the code
agree on the intent.  sendResponse has a dedicated data === null branch
(write the status code, end with an empty body) and the serve subscriber
deliberately lets every falsy value except undefined through to it, yet
prepareResponse first evaluates null[IS_RESPONSE] inside isResponseObject,
which throws a TypeError, so a bare null handler value crashes the
subscriber before anything is written. -/
theorem C3_bug :
    prepareResponse .null = .error nullPropertyError ∧
    handleTriple freshRes ⟨.reqres 0, .null, .null⟩ = some (.error nullPropertyError) :=
  ⟨rfl, rfl⟩

/-- C8: sendResponse destructures only the data, statusCode and headers
fields, never the IS_RESPONSE tag, so feeding it the tagged object built
by send(data, statusCode, headers) produces exactly the same status,
headers and body as feeding it any manually built descriptor with the same
three fields. -/
theorem C8_ok (res : Res) (data : JSValue) (statusCode : Int)
    (headers : List (String × String)) (tagged : Bool) :
    sendResponse res (send data statusCode headers) =
      sendResponse res (.response tagged data statusCode headers) := rfl

/-- C9: a descriptor whose data is exactly null makes the serializer end
the response right after setting the status code, before the loop that
applies the descriptor headers, so none of the explicitly supplied headers
is ever written: the response keeps exactly the headers it already had,
with an empty body. -/
theorem C9_ok (res : Res) (statusCode : Int) (headers : List (String × String)) :
    sendResponse res (send .null statusCode headers) =
      .ok { res with statusCode := statusCode, wire := some Wire.empty } := rfl

/-- C10: a descriptor whose data is exactly undefined falls through the
null check (undefined is not strictly equal to null), the buffer branch,
the stream branch and the JSON branch (typeof undefined is neither object
nor number) into the plain-text case, where Buffer.byteLength(undefined)
throws a TypeError, so the serializer never ends the response. -/
theorem C10_ok (res : Res) (statusCode : Int) (headers : List (String × String))
    (tagged : Bool) :
    sendResponse res (.response tagged .undefined statusCode headers) =
      .error byteLengthTypeError ∧
    sendResponse res (send .undefined 200 []) = .error byteLengthTypeError :=
  ⟨rfl, rfl⟩

/-! ## Header bookkeeping lemmas -/

theorem lookupHeader_cons (q : String × String) (t : List (String × String))
    (a : String) :
    lookupHeader (q :: t) a = if q.1 == a then some q.2 else lookupHeader t a := rfl

theorem replaceHeader_cons (q : String × String) (t : List (String × String))
    (k v : String) :
    replaceHeader (q :: t) k v =
      (if q.1 == k then (k, v) else q) :: replaceHeader t k v := rfl

theorem lookupHeader_replace_ne (l : List (String × String)) (k v a : String)
    (h : ¬ a = k) :
    lookupHeader (replaceHeader l k v) a = lookupHeader l a := by
  have hka : (k == a) = false := by
    simp only [beq_eq_false_iff_ne, ne_eq]
    exact fun hh => h hh.symm
  induction l with
  | nil => rfl
  | cons q t ih =>
      rw [replaceHeader_cons, lookupHeader_cons, lookupHeader_cons]
      by_cases hq : q.1 = k
      · have h1 : (if q.1 == k then (k, v) else q) = (k, v) := by simp [hq]
        have hqa : (q.1 == a) = false := by rw [hq]; exact hka
        rw [h1, hqa]
        simp only [hka, Bool.false_eq_true, if_false]
        exact ih
      · have h1 : (if q.1 == k then (k, v) else q) = q := by simp [hq]
        rw [h1]
        cases hqa : (q.1 == a) with
        | true => simp only [if_true]
        | false =>
            simp only [Bool.false_eq_true, if_false]
            exact ih

theorem lookupHeader_append_ne (l : List (String × String)) (k v a : String)
    (h : ¬ a = k) :
    lookupHeader (l ++ [(k, v)]) a = lookupHeader l a := by
  have hka : (k == a) = false := by
    simp only [beq_eq_false_iff_ne, ne_eq]
    exact fun hh => h hh.symm
  induction l with
  | nil =>
      rw [List.nil_append, lookupHeader_cons, hka]
      simp only [Bool.false_eq_true, if_false]
  | cons q t ih =>
      rw [List.cons_append, lookupHeader_cons, lookupHeader_cons]
      cases hqa : (q.1 == a) with
      | true => simp only [if_true]
      | false =>
          simp only [Bool.false_eq_true, if_false]
          exact ih

/-- Setting one header leaves every header with a different
case-insensitive name unchanged. -/
theorem setHeader_getHeader_ne (r : Res) (k v n : String)
    (h : ¬ headerKey n = headerKey k) :
    (r.setHeader k v).getHeader n = r.getHeader n := by
  simp only [Res.setHeader, Res.getHeader]
  cases hany : hasHeader r.headers (headerKey k) with
  | true =>
      simp only [hany, if_true]
      exact lookupHeader_replace_ne _ _ _ _ h
  | false =>
      simp only [hany, Bool.false_eq_true, if_false]
      exact lookupHeader_append_ne _ _ _ _ h

/-- The conditional Content-Type default leaves every header with a
different case-insensitive name unchanged. -/
theorem contentTypeDefault_getHeader_ne (r : Res) (ty n : String)
    (h : ¬ headerKey n = headerKey "Content-Type") :
    (contentTypeDefault r ty).getHeader n = r.getHeader n := by
  unfold contentTypeDefault
  split
  · exact setHeader_getHeader_ne r "Content-Type" ty n h
  · rfl

/-- When a non-empty Content-Type is already set, the conditional default
does nothing at all. -/
theorem contentTypeDefault_of_present (r : Res) (ty v : String)
    (hv : r.getHeader "Content-Type" = some v) (hne : ¬ v = "") :
    contentTypeDefault r ty = r := by
  unfold contentTypeDefault
  rw [hv]
  simp [hne]

/-- The wire field plays no role in header lookup. -/
theorem getHeader_wire (x : Res) (w : Option Wire) (n : String) :
    Res.getHeader { x with wire := w } n = x.getHeader n := rfl

/-- Every successful run of the typed serializer tail preserves the
headers it received, except that Content-Length is recomputed and a
Content-Type default may be added when none (or an empty one) was
present. -/
theorem writeBody_headers (A : Res) (data : JSValue) (r : Res)
    (hok : writeBody A data = .ok r) :
    (∀ n, ¬ headerKey n = headerKey "Content-Length" →
       ¬ headerKey n = headerKey "Content-Type" →
       r.getHeader n = A.getHeader n) ∧
    (∀ v, A.getHeader "Content-Type" = some v → ¬ v = "" →
       r.getHeader "Content-Type" = some v) := by
  have hctcl : ¬ headerKey "Content-Type" = headerKey "Content-Length" := by decide
  cases data with
  | undefined => exact Except.noConfusion hok
  | null =>
      have hr := Except.ok.inj hok
      subst hr
      refine ⟨fun n h1 h2 => ?_, fun v hv hne => ?_⟩
      · rw [getHeader_wire, setHeader_getHeader_ne _ _ _ _ h1,
          contentTypeDefault_getHeader_ne _ _ _ h2]
      · rw [getHeader_wire, setHeader_getHeader_ne _ _ _ _ hctcl,
          contentTypeDefault_of_present _ _ _ hv hne]
        exact hv
  | bool b => exact Except.noConfusion hok
  | num m =>
      have hr := Except.ok.inj hok
      subst hr
      refine ⟨fun n h1 h2 => ?_, fun v hv hne => ?_⟩
      · rw [getHeader_wire, setHeader_getHeader_ne _ _ _ _ h1,
          contentTypeDefault_getHeader_ne _ _ _ h2]
      · rw [getHeader_wire, setHeader_getHeader_ne _ _ _ _ hctcl,
          contentTypeDefault_of_present _ _ _ hv hne]
        exact hv
  | str s =>
      have hr := Except.ok.inj hok
      subst hr
      refine ⟨fun n h1 h2 => ?_, fun v hv hne => ?_⟩
      · rw [getHeader_wire, setHeader_getHeader_ne _ _ _ _ h1]
      · rw [getHeader_wire, setHeader_getHeader_ne _ _ _ _ hctcl]
        exact hv
  | buffer bytes =>
      have hr := Except.ok.inj hok
      subst hr
      refine ⟨fun n h1 h2 => ?_, fun v hv hne => ?_⟩
      · rw [getHeader_wire, setHeader_getHeader_ne _ _ _ _ h1,
          contentTypeDefault_getHeader_ne _ _ _ h2]
      · rw [getHeader_wire, setHeader_getHeader_ne _ _ _ _ hctcl,
          contentTypeDefault_of_present _ _ _ hv hne]
        exact hv
  | stream chunks =>
      have hr := Except.ok.inj hok
      subst hr
      refine ⟨fun n h1 h2 => ?_, fun v hv hne => ?_⟩
      · rw [getHeader_wire, contentTypeDefault_getHeader_ne _ _ _ h2]
      · rw [getHeader_wire, contentTypeDefault_of_present _ _ _ hv hne]
        exact hv
  | promise rej sv =>
      have hr := Except.ok.inj hok
      subst hr
      refine ⟨fun n h1 h2 => ?_, fun v hv hne => ?_⟩
      · rw [getHeader_wire, setHeader_getHeader_ne _ _ _ _ h1,
          contentTypeDefault_getHeader_ne _ _ _ h2]
      · rw [getHeader_wire, setHeader_getHeader_ne _ _ _ _ hctcl,
          contentTypeDefault_of_present _ _ _ hv hne]
        exact hv
  | jsError m =>
      have hr := Except.ok.inj hok
      subst hr
      refine ⟨fun n h1 h2 => ?_, fun v hv hne => ?_⟩
      · rw [getHeader_wire, setHeader_getHeader_ne _ _ _ _ h1,
          contentTypeDefault_getHeader_ne _ _ _ h2]
      · rw [getHeader_wire, setHeader_getHeader_ne _ _ _ _ hctcl,
          contentTypeDefault_of_present _ _ _ hv hne]
        exact hv
  | reqres i => exact Except.noConfusion hok
  | response tg d sc hh =>
      have hunf : writeBody A (.response tg d sc hh) =
          (match jsonStringify (.response tg d sc hh) with
           | .error e => .error e
           | .ok str =>
               .ok { (contentTypeDefault A "application/json; charset=utf-8").setHeader
                   "Content-Length" (toString str.utf8ByteSize) with
                   wire := some (Wire.chunk (.str str)) }) := rfl
      rw [hunf] at hok
      cases hj : jsonStringify (.response tg d sc hh) with
      | error e => rw [hj] at hok; exact Except.noConfusion hok
      | ok s =>
          rw [hj] at hok
          have hr := Except.ok.inj hok
          subst hr
          refine ⟨fun n h1 h2 => ?_, fun v hv hne => ?_⟩
          · rw [getHeader_wire, setHeader_getHeader_ne _ _ _ _ h1,
              contentTypeDefault_getHeader_ne _ _ _ h2]
          · rw [getHeader_wire, setHeader_getHeader_ne _ _ _ _ hctcl,
              contentTypeDefault_of_present _ _ _ hv hne]
            exact hv
  | responseError sc m orig =>
      have hunf : writeBody A (.responseError sc m orig) =
          (match jsonStringify (.responseError sc m orig) with
           | .error e => .error e
           | .ok str =>
               .ok { (contentTypeDefault A "application/json; charset=utf-8").setHeader
                   "Content-Length" (toString str.utf8ByteSize) with
                   wire := some (Wire.chunk (.str str)) }) := rfl
      rw [hunf] at hok
      cases hj : jsonStringify (.responseError sc m orig) with
      | error e => rw [hj] at hok; exact Except.noConfusion hok
      | ok s =>
          rw [hj] at hok
          have hr := Except.ok.inj hok
          subst hr
          refine ⟨fun n h1 h2 => ?_, fun v hv hne => ?_⟩
          · rw [getHeader_wire, setHeader_getHeader_ne _ _ _ _ h1,
              contentTypeDefault_getHeader_ne _ _ _ h2]
          · rw [getHeader_wire, setHeader_getHeader_ne _ _ _ _ hctcl,
              contentTypeDefault_of_present _ _ _ hv hne]
            exact hv

/-- C4, counterexample: an explicitly supplied Content-Length header does
not appear unchanged in the written response - the serializer recomputes
it unconditionally: for a two-byte string body the explicit value 999 is
overwritten with 2. -/
theorem C4_counterexample :
    sendResponse freshRes (send (.str "hi") 200 [("Content-Length", "999")]) =
      .ok { statusCode := 200, headers := [("content-length", "2")],
            wire := some (Wire.chunk (.str "hi")) } ∧
    ("2" : String) ≠ "999" :=
  ⟨rfl, by decide⟩

/-- C4, amended: for every descriptor with non-null data whose write
succeeds, each explicitly supplied header other than Content-Length (and
other than an empty-valued Content-Type, which the falsy-guard treats as
absent) appears unchanged in the written response, and the Content-Type
default never overwrites a non-empty explicit value; Content-Length,
however, is recomputed unconditionally in the buffer and text/JSON
branches and overwrites any explicit value. -/
theorem C4_amended (data : JSValue) (c : Int) (hs : List (String × String)) (r : Res)
    (hok : sendResponse freshRes (.response true data c hs) = .ok r)
    (hnull : ¬ data = JSValue.null) :
    (∀ n, ¬ headerKey n = headerKey "Content-Length" →
       ¬ headerKey n = headerKey "Content-Type" →
       r.getHeader n = (applyHeaders { freshRes with statusCode := c } hs).getHeader n) ∧
    (∀ v, (applyHeaders { freshRes with statusCode := c } hs).getHeader "Content-Type" =
        some v → ¬ v = "" → r.getHeader "Content-Type" = some v) := by
  have hw : writeBody (applyHeaders { freshRes with statusCode := c } hs) data = .ok r := by
    rw [← hok]
    cases data <;> first | exact absurd rfl hnull | rfl
  exact writeBody_headers _ _ _ hw

/-- C4, witness for the amended statement at a concrete descriptor. -/
theorem C4_amended_witness :
    (Res.mk 201 [("x-token", "abc"), ("content-length", "2")]
        (some (Wire.chunk (.str "hi")))).getHeader "X-Token" =
      (applyHeaders { freshRes with statusCode := 201 }
        [("X-Token", "abc")]).getHeader "X-Token" :=
  (C4_amended (.str "hi") 201 [("X-Token", "abc")]
      (Res.mk 201 [("x-token", "abc"), ("content-length", "2")]
        (some (Wire.chunk (.str "hi"))))
      rfl (fun h => JSValue.noConfusion h)).1 "X-Token" (by decide) (by decide)

/-- C5, counterexample: error mapping is not total over all thrown and
rejected values.  A handler that throws the falsy value 0 is captured as
the triple (event, 0, null), the subscriber guard if (err) is false on 0,
so the triple takes the value path, whose null value slot crashes in
prepareResponse - the client receives nothing, not status 500 with the
body Internal Server Error.  And a handler whose promise rejects with
createError(404, Not Found) is never captured as an error at all: the
promise is emitted as an ordinary value and serialized as JSON, so the
client receives status 200 with body \x7b\x7d, not status 404 with body
Not Found. -/
theorem C5_counterexample :
    (requestPipeline (fun _ => .throws (.num 0)) (.reqres 0)).emits =
      [⟨.reqres 0, .num 0, .null⟩] ∧
    handleTriple freshRes ⟨.reqres 0, .num 0, .null⟩ =
      some (.error nullPropertyError) ∧
    (requestPipeline
        (fun _ => .value (.promise true (.responseError 404 "Not Found" .undefined)))
        (.reqres 1)).emits =
      [⟨.reqres 1, .null, .promise true (.responseError 404 "Not Found" .undefined)⟩] ∧
    handleTriple freshRes
        ⟨.reqres 1, .null, .promise true (.responseError 404 "Not Found" .undefined)⟩ =
      some (.ok { statusCode := 200,
                  headers := [("content-type", "application/json; charset=utf-8"),
                    ("content-length", "2")],
                  wire := some (Wire.chunk (.str "\x7b\x7d")) }) :=
  ⟨rfl, rfl, rfl, rfl⟩

/-- C5, amended: error mapping is two-branched over the error values the
subscriber actually routes to it, namely the truthy captured ones.  For
every truthy captured error value: a ResponseError with code c and
message m reaches the client as status c with body exactly m, and every
other value as status 500 with the body Internal Server Error; in both
branches the written response is built from the code and message alone,
the original failure being handed only to the error log.  A falsy thrown
value fails the if (err) guard and takes the value path instead
(crashing on its null value slot), and an asynchronous rejection is
never captured at all, so rejected Error Descriptors never reach the
error mapping. -/
theorem C5_amended (ev e : JSValue) (h : truthy e = true) :
    handleTriple freshRes ⟨ev, e, .null⟩ =
      some (match e with
       | .responseError c m _ =>
           .ok { statusCode := c,
                 headers := [("content-length", toString (String.utf8ByteSize m))],
                 wire := some (Wire.chunk (.str m)) }
       | _ =>
           .ok { statusCode := 500,
                 headers := [("content-length",
                   toString (String.utf8ByteSize "Internal Server Error"))],
                 wire := some (Wire.chunk (.str "Internal Server Error")) }) := by
  have hunf : handleTriple freshRes ⟨ev, e, .null⟩ =
      (if truthy e then some (sendResponse freshRes (prepareErrorResponse e).2)
       else some (responsePipeline freshRes .null)) := rfl
  rw [hunf]
  simp only [h, if_true]
  cases e <;> rfl

/-- C5, witness for the amended statement: a thrown createError(404, Not
Found) reaches the client as status 404 with body exactly Not Found. -/
theorem C5_amended_witness :
    handleTriple freshRes ⟨.reqres 0, .responseError 404 "Not Found" .undefined, .null⟩ =
      some (.ok { statusCode := 404, headers := [("content-length", "9")],
                  wire := some (Wire.chunk (.str "Not Found")) }) :=
  C5_amended (.reqres 0) (.responseError 404 "Not Found" .undefined) rfl

/-- C6: a synchronous server construction or bind failure makes the event
sequence terminate with that failure before any Request Event - zero
events, zero triples, a terminal error rather than a per-request one - and
when the server is explicitly shut down (the close event) the sequence
completes without error, provided every in-flight handler sequence itself
terminates. -/
theorem C6_ok (script : ServerScript) (handler : Handler) :
    (∀ e, script.constructError = some e →
       createServerObservable script = { emits := [], term := .error e } ∧
       serveRequests handler script = { emits := [], term := .error e }) ∧
    (script.constructError = none → script.closed = true →
       ((script.requests.map JSValue.reqres).all
         (fun ev => (requestPipeline handler ev).term matches .complete)) = true →
       (serveRequests handler script).term = .complete) := by
  constructor
  · intro e he
    have h1 : createServerObservable script = { emits := [], term := .error e } := by
      simp [createServerObservable, he]
    refine ⟨h1, ?_⟩
    simp [serveRequests, run, h1]
  · intro h1 h2 h3
    simp [serveRequests, run, createServerObservable, h1, h2, h3]

/-- C6, witness: a concrete bind failure, and a concrete clean shutdown
after one request under a plain-value handler. -/
theorem C6_ok_witness :
    (createServerObservable ⟨some (.jsError "listen failure"), [], false⟩ =
        { emits := [], term := .error (.jsError "listen failure") } ∧
      serveRequests (fun _ => .value (.str "ok"))
          ⟨some (.jsError "listen failure"), [], false⟩ =
        { emits := [], term := .error (.jsError "listen failure") }) ∧
    (serveRequests (fun _ => .value (.str "ok")) ⟨none, [7], true⟩).term =
      Terminal.complete :=
  ⟨(C6_ok ⟨some (.jsError "listen failure"), [], false⟩
      (fun _ => .value (.str "ok"))).1 (.jsError "listen failure") rfl,
   (C6_ok ⟨none, [7], true⟩ (fun _ => .value (.str "ok"))).2 rfl rfl rfl⟩

/-- C7: the subscriber writes nothing at all when the resolved value of a
successful triple is exactly undefined, and hands every other value -
null, 0, false and the empty string included - to the normal
response-serialization pipeline (where null and false then throw inside
it, see the C3 result). -/
theorem C7_ok (res : Res) (ev v : JSValue) :
    handleTriple res ⟨ev, .null, .undefined⟩ = none ∧
    (¬ v = JSValue.undefined →
      handleTriple res ⟨ev, .null, v⟩ = some (responsePipeline res v)) := by
  refine ⟨rfl, fun hv => ?_⟩
  cases v <;> first | exact absurd rfl hv | rfl

/-- C7, witness: nothing is written for undefined, while null is handed to
the pipeline. -/
theorem C7_ok_witness :
    handleTriple freshRes ⟨.reqres 0, .null, .undefined⟩ = none ∧
    handleTriple freshRes ⟨.reqres 0, .null, .null⟩ =
      some (responsePipeline freshRes .null) :=
  ⟨(C7_ok freshRes (.reqres 0) .null).1,
   (C7_ok freshRes (.reqres 0) .null).2 (fun h => JSValue.noConfusion h)⟩

end LaceHttp
